import Mathlib

/-!
Verification of the quinn QUIC implementation sample against its
natural-language specification.  The development shallowly embeds the
relevant parts of three source files:

* `quinn-proto/src/config.rs` — configuration surface (`TransportConfig`,
  `EndpointConfig`, `ServerConfig`, `ConfigError`);
* `quinn/src/send_stream.rs` — the async `SendStream` wrapper
  (`execute_poll`, `poll_finish`, `reset`, `poll_stopped`, `Drop`,
  `WriteError`, `StoppedError`, the `io::Error` conversion);
* `perf/src/bin/perf_server.rs` — the benchmark server request handler
  (`read_req`, `drain_stream`, `respond`).

Machine integers are modelled as `Nat` (all relevant arithmetic stays far
below any overflow boundary; where a bound matters — `VarInt` — it is
checked explicitly).  `Duration` values are modelled in milliseconds.
Opaque cryptographic material (HMAC keys, TLS configs, token keys, CID
generator factories) carries no information relevant to any claim and is
omitted from the embedded structures; every field a claim mentions is
present and initialised exactly as in the source.
-/

/-- Maximum value representable as a QUIC variable-length integer:
`2^62 - 1`.  Mirrors `VarInt::MAX` in quinn-proto. -/
def VarInt.MAX : Nat := 2 ^ 62 - 1

/-- Errors in the configuration of an endpoint.  Mirrors `ConfigError` in
`quinn-proto/src/config.rs` (single variant `OutOfBounds`). -/
inductive ConfigError where
  | OutOfBounds
deriving DecidableEq, Repr

/-- Conversion of a `u64` into a `VarInt`, as used by the `value.try_into()?`
pattern in the config setters: succeeds exactly when the value fits in
`0 .. 2^62 - 1`, otherwise yields `ConfigError::OutOfBounds` (via the
`From<VarIntBoundsExceeded> for ConfigError` impl). -/
def VarInt.try_from (v : Nat) : Except ConfigError Nat :=
  if v ≤ VarInt.MAX then .ok v else .error .OutOfBounds

/-- Parameters governing the core QUIC state machine.  Mirrors
`TransportConfig` in `quinn-proto/src/config.rs`.  `VarInt` fields are `Nat`
bounded by `VarInt.MAX`; `Duration` fields are in milliseconds;
`time_threshold` (an `f32` in the source, always set to the exactly
representable 9/8) is a `Rat`.  The opaque
`congestion_controller_factory` box is omitted. -/
structure TransportConfig where
  max_concurrent_bidi_streams : Nat
  max_concurrent_uni_streams : Nat
  max_idle_timeout : Option Nat
  stream_receive_window : Nat
  receive_window : Nat
  send_window : Nat
  max_tlps : Nat
  packet_threshold : Nat
  time_threshold : Rat
  initial_rtt : Nat
  persistent_congestion_threshold : Nat
  keep_alive_interval : Option Nat
  crypto_buffer_size : Nat
  allow_spin : Bool
  datagram_receive_buffer_size : Option Nat
  datagram_send_buffer_size : Nat
deriving DecidableEq, Repr

/-- The constant `EXPECTED_RTT` (ms) from `impl Default for TransportConfig`. -/
def EXPECTED_RTT : Nat := 100

/-- The constant `MAX_STREAM_BANDWIDTH` (bytes/s) from
`impl Default for TransportConfig`. -/
def MAX_STREAM_BANDWIDTH : Nat := 12500 * 1000

/-- The constant `STREAM_RWND` from `impl Default for TransportConfig`:
window size needed to avoid pipeline stalls. -/
def STREAM_RWND : Nat := MAX_STREAM_BANDWIDTH / 1000 * EXPECTED_RTT

/-- Mirrors `impl Default for TransportConfig` in
`quinn-proto/src/config.rs`, field by field. -/
def TransportConfig.default : TransportConfig where
  max_concurrent_bidi_streams := 100
  max_concurrent_uni_streams := 100
  max_idle_timeout := some 10000
  stream_receive_window := STREAM_RWND
  receive_window := VarInt.MAX
  send_window := 8 * STREAM_RWND
  max_tlps := 2
  packet_threshold := 3
  time_threshold := 9 / 8
  initial_rtt := 333
  persistent_congestion_threshold := 3
  keep_alive_interval := none
  crypto_buffer_size := 16 * 1024
  allow_spin := true
  datagram_receive_buffer_size := some STREAM_RWND
  datagram_send_buffer_size := 1024 * 1024

/-- Global configuration for the endpoint.  Mirrors `EndpointConfig` in
`quinn-proto/src/config.rs`; the opaque `reset_key` and
`connection_id_generator_factory` are omitted. -/
structure EndpointConfig where
  max_udp_payload_size : Nat
  supported_versions : List Nat
  initial_version : Nat
deriving DecidableEq, Repr

/-- Mirrors `EndpointConfig::new`.  The source draws the version fields from
the crate-level constant `DEFAULT_SUPPORTED_VERSIONS` (defined outside the
sampled files), so the constant is taken as a parameter here; `new` sets
`max_udp_payload_size` to 1480 and copies the constant into
`supported_versions`/`initial_version` (first element). -/
def EndpointConfig.new (default_supported_versions : List Nat) : EndpointConfig where
  max_udp_payload_size := 1480
  supported_versions := default_supported_versions
  initial_version := default_supported_versions.headD 0

/-- Mirrors `EndpointConfig::max_udp_payload_size` (the setter): the value
passes through `VarInt::try_from`; on success the field is updated, and an
error leaves the configuration unchanged (the `?` operator returns before
any mutation).  The pair returns the error, if any, alongside the resulting
configuration. -/
def EndpointConfig.max_udp_payload_size_set (cfg : EndpointConfig) (value : Nat) :
    Option ConfigError × EndpointConfig :=
  match VarInt.try_from value with
  | .ok v => (none, { cfg with max_udp_payload_size := v })
  | .error e => (some e, cfg)

/-- Mirrors `EndpointConfig::supported_versions`: rejects with `OutOfBounds`
when `initial_version` is not contained in `supported_versions` (leaving the
configuration unchanged); otherwise installs both fields. -/
def EndpointConfig.supported_versions_set (cfg : EndpointConfig)
    (supported_versions : List Nat) (initial_version : Nat) :
    Option ConfigError × EndpointConfig :=
  if ¬ supported_versions.contains initial_version then
    (some .OutOfBounds, cfg)
  else
    (none, { cfg with supported_versions := supported_versions,
                      initial_version := initial_version })

/-- Parameters governing incoming connections.  Mirrors `ServerConfig` in
`quinn-proto/src/config.rs`; the opaque `crypto` and `token_key` fields are
omitted.  `retry_token_lifetime` is in milliseconds. -/
structure ServerConfig where
  transport : TransportConfig
  use_stateless_retry : Bool
  retry_token_lifetime : Nat
  concurrent_connections : Nat
  migration : Bool
deriving DecidableEq, Repr

/-- Mirrors `ServerConfig::new` (the `prk` token key is opaque and omitted):
default transport config, no stateless retry, 15 s token lifetime,
100 000 concurrent connections, migration enabled. -/
def ServerConfig.new : ServerConfig where
  transport := TransportConfig.default
  use_stateless_retry := false
  retry_token_lifetime := 15 * 1000
  concurrent_connections := 100000
  migration := true

/-- C3: `TransportConfig::default()` equals the spec's default column:
stream_receive_window = 1 250 000, receive_window = 2^62 − 1,
send_window = 8 × 1 250 000 = 10 000 000, 100 concurrent bidi and uni
streams, 10 s idle timeout, packet_threshold = 3, time_threshold = 9/8,
initial_rtt = 333 ms, persistent_congestion_threshold = 3,
crypto_buffer_size = 16 KiB, datagram_send_buffer_size = 1 MiB. -/
theorem transport_config_default_matches_spec :
    TransportConfig.default.stream_receive_window = 1250000 ∧
    TransportConfig.default.receive_window = 2 ^ 62 - 1 ∧
    TransportConfig.default.send_window = 10000000 ∧
    TransportConfig.default.send_window = 8 * 1250000 ∧
    TransportConfig.default.max_concurrent_bidi_streams = 100 ∧
    TransportConfig.default.max_concurrent_uni_streams = 100 ∧
    TransportConfig.default.max_idle_timeout = some 10000 ∧
    TransportConfig.default.packet_threshold = 3 ∧
    TransportConfig.default.time_threshold = 9 / 8 ∧
    TransportConfig.default.initial_rtt = 333 ∧
    TransportConfig.default.persistent_congestion_threshold = 3 ∧
    TransportConfig.default.crypto_buffer_size = 16384 ∧
    TransportConfig.default.datagram_send_buffer_size = 1048576 := by
  refine ⟨rfl, rfl, rfl, rfl, rfl, rfl, rfl, rfl, rfl, rfl, rfl, rfl, rfl⟩

/-- C4: `ServerConfig::new` has use_stateless_retry = false,
retry_token_lifetime = 15 s, concurrent_connections = 100 000,
migration = true, and `EndpointConfig::new` has
max_udp_payload_size = 1480 (whatever the crate-level default version list
is). -/
theorem server_and_endpoint_defaults_match_spec :
    ServerConfig.new.use_stateless_retry = false ∧
    ServerConfig.new.retry_token_lifetime = 15000 ∧
    ServerConfig.new.concurrent_connections = 100000 ∧
    ServerConfig.new.migration = true ∧
    ∀ vs : List Nat, (EndpointConfig.new vs).max_udp_payload_size = 1480 := by
  exact ⟨rfl, rfl, rfl, rfl, fun _ => rfl⟩

/-- C5: `EndpointConfig::supported_versions(vs, iv)` fails with
`OutOfBounds` exactly when `iv ∉ vs`, leaving both fields unchanged; on
success it installs `vs` and `iv`. -/
theorem supported_versions_ok_iff_member (cfg : EndpointConfig)
    (vs : List Nat) (iv : Nat) :
    EndpointConfig.supported_versions_set cfg vs iv =
      if iv ∈ vs then
        (none, { cfg with supported_versions := vs, initial_version := iv })
      else
        (some ConfigError.OutOfBounds, cfg) := by
  unfold EndpointConfig.supported_versions_set
  by_cases h : iv ∈ vs
  · simp [h]
  · simp [h]

/-- Opaque reason carried by `ConnectionError` (the quinn-proto connection
error type is external to the sampled files; all the sampled code does is
clone and propagate it, so an identifying tag suffices). -/
structure ConnectionError where
  tag : Nat
deriving DecidableEq, Repr

/-- Errors that arise from writing to a stream.  Mirrors `WriteError` in
`quinn/src/send_stream.rs` (error codes are `VarInt`, modelled as `Nat`). -/
inductive WriteError where
  | Stopped (code : Nat)
  | ConnectionClosed (reason : ConnectionError)
  | UnknownStream
  | ZeroRttRejected
deriving DecidableEq, Repr

/-- Errors that arise while monitoring for a send stream stop from the
peer.  Mirrors `StoppedError` in `quinn/src/send_stream.rs`. -/
inductive StoppedError where
  | ConnectionClosed (reason : ConnectionError)
  | UnknownStream
  | ZeroRttRejected
deriving DecidableEq, Repr

/-- Mirrors `proto::WriteError`, the error type of the sans-I/O
`proto::SendStream::write` family (the callee of `execute_poll`'s
`write_fn`): `Blocked`, `Stopped(code)` or `UnknownStream`. -/
inductive ProtoWriteError where
  | Blocked
  | Stopped (code : Nat)
  | UnknownStream
deriving DecidableEq, Repr

/-- Mirrors `proto::FinishError`, the error type of the sans-I/O
`proto::SendStream::finish`. -/
inductive FinishError where
  | UnknownStream
  | Stopped (code : Nat)
deriving DecidableEq, Repr

/-- Mirrors `UnknownStream` from `quinn/src/recv_stream.rs`, the error type
of `reset`/`set_priority`/`priority`. -/
structure UnknownStreamErr where
deriving DecidableEq, Repr

/-- Mirrors `std::task::Poll`. -/
inductive Poll (α : Type) where
  | Ready (a : α)
  | Pending
deriving DecidableEq, Repr

/-- State of the `finishing` oneshot receiver a `SendStream` holds after a
finish was initiated: either the sender has not fired yet (`pending`) or it
resolved with `Option WriteError` (`none` = finish succeeded). -/
inductive ChanPoll where
  | pending
  | ready (r : Option WriteError)
deriving DecidableEq, Repr

/-- The `SendStream` handle fields relevant to the sampled code: the stream
id, the 0-RTT flag, and the optional finishing channel (the `conn`
reference is passed separately). -/
structure SendStream where
  stream : Nat
  is_0rtt : Bool
  finishing : Option ChanPoll
deriving DecidableEq, Repr

/-- The locked connection state (`ConnectionInner`) as the sampled code
touches it: the result `check_0rtt` would report (`zero_rtt_ok` = the
server accepted, or the stream is not subject to rejection), the stored
connection error, the waker tables `blocked_writers` and `stopped`
(association lists, most recent insertion first, keyed by stream id with
the waker modelled as a tag), the set of stream ids with registered
finishing senders, and whether the driver task has been woken. -/
structure Conn where
  zero_rtt_ok : Bool
  error : Option ConnectionError
  blocked_writers : List (Nat × Nat)
  stopped : List (Nat × Nat)
  finishing : List Nat
  woken : Bool
deriving DecidableEq, Repr

/-- Mirrors `conn.wake()`. -/
def Conn.wake (conn : Conn) : Conn := { conn with woken := true }

/-- Mirrors `SendStream::execute_poll` from `quinn/src/send_stream.rs`.
`write_result` stands for the outcome the sans-I/O
`proto::SendStream::write` family would produce for this call (that code is
external to the sampled files); it is only consulted on the path where the
source actually invokes `write_fn`.  Order of checks, exactly as in the
source: the 0-RTT rejection check, then the stored connection error, then
the proto write: `Ok` wakes the driver, `Blocked` records the waker in
`blocked_writers` and returns `Pending`, `Stopped`/`UnknownStream` surface
as the corresponding `WriteError`. -/
def SendStream.execute_poll {R : Type} (st : SendStream) (conn : Conn)
    (waker : Nat) (write_result : Except ProtoWriteError R) :
    Poll (Except WriteError R) × Conn :=
  if st.is_0rtt = true ∧ conn.zero_rtt_ok = false then
    (.Ready (.error .ZeroRttRejected), conn)
  else
    match conn.error with
    | some x => (.Ready (.error (.ConnectionClosed x)), conn)
    | none =>
      match write_result with
      | .ok r => (.Ready (.ok r), conn.wake)
      | .error .Blocked =>
        (.Pending, { conn with blocked_writers := (st.stream, waker) :: conn.blocked_writers })
      | .error (.Stopped error_code) => (.Ready (.error (.Stopped error_code)), conn)
      | .error .UnknownStream => (.Ready (.error .UnknownStream), conn)

/-- Mirrors `SendStream::poll_finish`.  `proto_finish` stands for the
outcome of the external `proto::SendStream::finish`, consulted only when no
finishing channel exists yet.  When a channel has to be created it starts
`pending` and the connection registers the sender and wakes; polling a
pending channel checks the connection error only after the channel, so a
resolved channel's result is reported even on a dead connection.  Returns
the poll result together with the updated handle and connection. -/
def SendStream.poll_finish (st : SendStream) (conn : Conn)
    (proto_finish : Except FinishError Unit) :
    Poll (Except WriteError Unit) × SendStream × Conn :=
  if st.is_0rtt = true ∧ conn.zero_rtt_ok = false then
    (.Ready (.error .ZeroRttRejected), st, conn)
  else
    match st.finishing with
    | none =>
      match proto_finish with
      | .error .UnknownStream => (.Ready (.error .UnknownStream), st, conn)
      | .error (.Stopped error_code) => (.Ready (.error (.Stopped error_code)), st, conn)
      | .ok _ =>
        let st' := { st with finishing := some .pending }
        let conn' := ({ conn with finishing := st.stream :: conn.finishing } : Conn).wake
        match conn'.error with
        | some x => (.Ready (.error (.ConnectionClosed x)), st', conn')
        | none => (.Pending, st', conn')
    | some .pending =>
      match conn.error with
      | some x => (.Ready (.error (.ConnectionClosed x)), st, conn)
      | none => (.Pending, st, conn)
    | some (.ready none) => (.Ready (.ok ()), st, conn)
    | some (.ready (some e)) => (.Ready (.error e), st, conn)

/-- Mirrors `SendStream::reset`.  `proto_reset` stands for the outcome of
the external `proto::SendStream::reset`.  The third component records
whether the proto-level reset was invoked at all (i.e. whether a
RESET_STREAM could have been queued): on a rejected 0-RTT stream the source
returns `Ok(())` before touching the inner stream or waking. -/
def SendStream.reset (st : SendStream) (conn : Conn)
    (proto_reset : Except UnknownStreamErr Unit) :
    Except UnknownStreamErr Unit × Conn × Bool :=
  if st.is_0rtt = true ∧ conn.zero_rtt_ok = false then
    (.ok (), conn, false)
  else
    match proto_reset with
    | .error e => (.error e, conn, true)
    | .ok _ => (.ok (), conn.wake, true)

/-- Mirrors `SendStream::poll_stopped`.  `proto_stopped` stands for the
outcome of the external `proto::SendStream::stopped`: an error for an
unknown stream, `some code` when the peer has stopped the stream, `none`
when it has not (in which case the waker is recorded in `conn.stopped` and
the poll is `Pending`). -/
def SendStream.poll_stopped (st : SendStream) (conn : Conn) (waker : Nat)
    (proto_stopped : Except UnknownStreamErr (Option Nat)) :
    Poll (Except StoppedError Nat) × Conn :=
  if st.is_0rtt = true ∧ conn.zero_rtt_ok = false then
    (.Ready (.error .ZeroRttRejected), conn)
  else
    match proto_stopped with
    | .error _ => (.Ready (.error .UnknownStream), conn)
    | .ok (some error_code) => (.Ready (.ok error_code), conn)
    | .ok none => (.Pending, { conn with stopped := (st.stream, waker) :: conn.stopped })

/-- Observable effect of dropping a `SendStream` on the stream state: an
implicit finish, a reset with a code, or nothing. -/
inductive DropEffect where
  | finished
  | did_reset (code : Nat)
  | nothing
deriving DecidableEq, Repr

/-- Mirrors `impl Drop for SendStream`.  `proto_finish` stands for the
outcome of the external `proto::SendStream::finish`, `proto_reset_ok` for
whether the subsequent `proto::SendStream::reset` (only attempted when
finish reported `Stopped`) succeeds.  A connection that already carries an
error, or a rejected 0-RTT stream, short-circuits; a stream whose finishing
channel exists is left alone; otherwise the stream is finished, or reset
with the peer's stop code when finish reports `Stopped`, and `UnknownStream`
(already finished or reset) is ignored. -/
def SendStream.drop (st : SendStream) (conn : Conn)
    (proto_finish : Except FinishError Unit) (proto_reset_ok : Bool) :
    DropEffect × Conn :=
  if conn.error.isSome ∨ (st.is_0rtt = true ∧ conn.zero_rtt_ok = false) then
    (.nothing, conn)
  else
    match st.finishing with
    | some _ => (.nothing, conn)
    | none =>
      match proto_finish with
      | .ok _ => (.finished, conn.wake)
      | .error (.Stopped reason) =>
        if proto_reset_ok then (.did_reset reason, conn.wake)
        else (.did_reset reason, conn)
      | .error .UnknownStream => (.nothing, conn)

/-- Mirrors the `io::ErrorKind` values used by
`impl From<WriteError> for io::Error`. -/
inductive IoErrorKind where
  | ConnectionReset
  | NotConnected
deriving DecidableEq, Repr

/-- Mirrors `impl From<WriteError> for io::Error` in
`quinn/src/send_stream.rs`: the kind chosen for each variant (the
`io::Error` payload is the original `WriteError` itself, so only the kind
is computed here). -/
def WriteError.io_error_kind : WriteError → IoErrorKind
  | .Stopped _ => .ConnectionReset
  | .ZeroRttRejected => .ConnectionReset
  | .ConnectionClosed _ => .NotConnected
  | .UnknownStream => .NotConnected

/-- Mirrors `u64::from_be_bytes` applied to the 8 request-header bytes in
`read_req` of `perf/src/bin/perf_server.rs`: big-endian base-256 fold. -/
def u64_from_be_bytes (b : List Nat) : Nat :=
  b.foldl (fun acc x => acc * 256 + x) 0

/-- Mirrors the `respond` loop of `perf/src/bin/perf_server.rs`: while
`bytes > 0`, write a chunk of `min bytes (1024 * 1024)` bytes of value 42
(the static `DATA` array is `[42; 1024 * 1024]`) and decrement.  Returns
the concatenation of all bytes written to the stream. -/
def respond (bytes : Nat) : List Nat :=
  if h : bytes = 0 then []
  else
    List.replicate (min bytes (1024 * 1024)) 42 ++
      respond (bytes - min bytes (1024 * 1024))
termination_by bytes
decreasing_by
  omega

/-- Mirrors `read_req` of `perf/src/bin/perf_server.rs`: `read_exact` the
first 8 bytes (failing when the stream holds fewer), decode them as a
big-endian u64, and drain the remainder of the stream (the padding is
consumed and discarded by `drain_stream`). -/
def read_req (s : List Nat) : Option Nat :=
  if 8 ≤ s.length then some (u64_from_be_bytes (s.take 8)) else none

/-- Mirrors the request pipeline shared by `handle_uni` and `handle_bi` in
`perf/src/bin/perf_server.rs`: decode the requested length with `read_req`,
then produce the `respond` bytes (written on the bound bi stream, or on a
freshly opened uni stream for a uni request). -/
def handle_request (s : List Nat) : Option (List Nat) :=
  (read_req s).map respond

/-- The `respond` loop emits exactly its argument many bytes, all 42. -/
theorem respond_eq_replicate (n : Nat) : respond n = List.replicate n 42 := by
  induction n using Nat.strong_induction_on with
  | _ n ih =>
    rw [respond]
    by_cases h : n = 0
    · simp [h]
    · rw [dif_neg h, ih (n - min n (1024 * 1024)) (by omega), ← List.replicate_add]
      congr 1
      omega

/-- C1 (amended): every error a write surfaces is one of Stopped,
ConnectionClosed, UnknownStream, ZeroRttRejected; a `Blocked` proto result
(on a live connection) never completes the write with an error but suspends
it with the waker recorded in `blocked_writers`; and when the connection
already carries an error the write completes with `ConnectionClosed`
(stated here for streams that are not rejected 0-RTT streams, which fail
with `ZeroRttRejected` first — see the counterexample). -/
theorem write_surfaces_only_typed_errors {R : Type} (st : SendStream) (conn : Conn)
    (waker : Nat) (write_result : Except ProtoWriteError R)
    (h0 : ¬(st.is_0rtt = true ∧ conn.zero_rtt_ok = false)) :
    (∀ e, (SendStream.execute_poll st conn waker write_result).1 = .Ready (.error e) →
        (∃ c, e = .Stopped c) ∨ (∃ x, e = .ConnectionClosed x) ∨
        e = .UnknownStream ∨ e = .ZeroRttRejected) ∧
    (conn.error = none → write_result = .error .Blocked →
        (SendStream.execute_poll st conn waker write_result).1 = .Pending ∧
        (SendStream.execute_poll st conn waker write_result).2.blocked_writers.lookup st.stream
          = some waker) ∧
    (∀ x : ConnectionError, conn.error = some x →
        (SendStream.execute_poll st conn waker write_result).1
          = .Ready (.error (.ConnectionClosed x))) := by
  refine ⟨?_, ?_, ?_⟩
  · intro e _
    cases e with
    | Stopped c => exact .inl ⟨c, rfl⟩
    | ConnectionClosed x => exact .inr (.inl ⟨x, rfl⟩)
    | UnknownStream => exact .inr (.inr (.inl rfl))
    | ZeroRttRejected => exact .inr (.inr (.inr rfl))
  · intro herr hwr
    subst hwr
    simp [SendStream.execute_poll, if_neg h0, herr, List.lookup]
  · intro x herr
    simp [SendStream.execute_poll, if_neg h0, herr]

/-- C1 witness: a blocked write on a live, non-0-RTT stream is suspended
and its waker is recorded. -/
theorem write_surfaces_only_typed_errors_witness :
    (SendStream.execute_poll (R := Nat) ⟨4, false, none⟩ ⟨true, none, [], [], [], false⟩ 7
        (.error .Blocked)).1 = .Pending ∧
    (SendStream.execute_poll (R := Nat) ⟨4, false, none⟩ ⟨true, none, [], [], [], false⟩ 7
        (.error .Blocked)).2.blocked_writers.lookup 4 = some 7 :=
  (write_surfaces_only_typed_errors ⟨4, false, none⟩ ⟨true, none, [], [], [], false⟩ 7
    (.error .Blocked) (by decide)).2.1 rfl rfl

/-- C1 counterexample: on a rejected 0-RTT stream whose connection also
carries an error, a write completes with `ZeroRttRejected`, not
`ConnectionClosed` as the claim's last clause demands. -/
theorem write_connection_error_counterexample :
    (SendStream.execute_poll (R := Nat) ⟨5, true, none⟩ ⟨false, some ⟨0⟩, [], [], [], false⟩ 0
        (.ok 0)).1 = .Ready (.error .ZeroRttRejected) ∧
    WriteError.ZeroRttRejected ≠ WriteError.ConnectionClosed ⟨0⟩ :=
  ⟨rfl, by decide⟩

/-- C2: dropping a `SendStream` whose finishing channel was never created,
on a connection without a stored error and whose 0-RTT was not rejected,
performs an implicit finish; when the peer has stopped the stream (the
proto finish reports `Stopped(code)`), the drop instead resets the stream
with that code. -/
theorem drop_is_implicit_finish (st : SendStream) (conn : Conn)
    (proto_finish : Except FinishError Unit) (proto_reset_ok : Bool)
    (h1 : st.finishing = none) (h2 : conn.error = none)
    (h3 : ¬(st.is_0rtt = true ∧ conn.zero_rtt_ok = false)) :
    (proto_finish = .ok () →
        SendStream.drop st conn proto_finish proto_reset_ok = (.finished, conn.wake)) ∧
    (∀ code, proto_finish = .error (.Stopped code) →
        (SendStream.drop st conn proto_finish proto_reset_ok).1 = .did_reset code) := by
  constructor
  · intro hpf
    subst hpf
    simp [SendStream.drop, h1, h2, h3]
  · intro code hpf
    subst hpf
    simp [SendStream.drop, h1, h2, h3]
    cases proto_reset_ok <;> simp

/-- C2 witness: a concrete drop finishes the stream, and one whose peer
stopped with code 7 resets with code 7. -/
theorem drop_is_implicit_finish_witness :
    SendStream.drop ⟨3, false, none⟩ ⟨true, none, [], [], [], false⟩ (.ok ()) true
      = (.finished, Conn.wake ⟨true, none, [], [], [], false⟩) ∧
    (SendStream.drop ⟨3, false, none⟩ ⟨true, none, [], [], [], false⟩
        (.error (.Stopped 7)) true).1 = .did_reset 7 :=
  ⟨(drop_is_implicit_finish ⟨3, false, none⟩ ⟨true, none, [], [], [], false⟩ (.ok ()) true
      rfl rfl (by decide)).1 rfl,
   (drop_is_implicit_finish ⟨3, false, none⟩ ⟨true, none, [], [], [], false⟩
      (.error (.Stopped 7)) true rfl rfl (by decide)).2 7 rfl⟩

/-- C6 (amended): the `max_udp_payload_size` setter rejects with
`OutOfBounds` exactly when the value exceeds the varint bound
`2^62 − 1 = 4611686018427387903`; every smaller value — including values
below 1200 or above 65527 — is accepted and stored. -/
theorem max_udp_payload_size_set_varint_bound (cfg : EndpointConfig) (v : Nat) :
    EndpointConfig.max_udp_payload_size_set cfg v =
      if v ≤ 4611686018427387903 then
        (none, { cfg with max_udp_payload_size := v })
      else
        (some ConfigError.OutOfBounds, cfg) := by
  have hb : VarInt.MAX = 4611686018427387903 := by norm_num [VarInt.MAX]
  unfold EndpointConfig.max_udp_payload_size_set VarInt.try_from
  rw [hb]
  by_cases h : v ≤ 4611686018427387903
  · simp [h]
  · simp [h]

/-- C6 counterexample: the values 0 (below the spec's lower bound 1200) and
65528 (above the spec's upper bound 65527) are both accepted by the setter
rather than rejected with `OutOfBounds`. -/
theorem max_udp_payload_size_bounds_counterexample :
    EndpointConfig.max_udp_payload_size_set ⟨1480, [1], 1⟩ 0 = (none, ⟨0, [1], 1⟩) ∧
    (0 : Nat) < 1200 ∧
    EndpointConfig.max_udp_payload_size_set ⟨1480, [1], 1⟩ 65528 = (none, ⟨65528, [1], 1⟩) ∧
    (65527 : Nat) < 65528 := by
  refine ⟨by decide, by norm_num, by decide, by norm_num⟩

/-- C7: for any request stream made of an 8-byte header followed by
arbitrary padding, the perf server's response is exactly the decoded
big-endian length `N` many bytes, every one equal to 42 (0x2A); the
padding is drained and never echoed (the response depends only on the
header). -/
theorem perf_server_response_is_n_bytes_of_42 (hdr padding : List Nat)
    (h : hdr.length = 8) :
    handle_request (hdr ++ padding)
      = some (List.replicate (u64_from_be_bytes hdr) 42) := by
  have hlen : 8 ≤ (hdr ++ padding).length := by
    rw [List.length_append, h]
    omega
  have htake : (hdr ++ padding).take 8 = hdr := by
    rw [← h]
    exact List.take_left hdr padding
  unfold handle_request read_req
  rw [if_pos hlen, htake]
  simp [respond_eq_replicate]

/-- C7 witness: a request of 1024 (header 00 00 00 00 00 00 04 00) with
three bytes of padding yields exactly 1024 bytes of 42. -/
theorem perf_server_response_witness :
    handle_request ([0, 0, 0, 0, 0, 0, 4, 0] ++ [9, 9, 9])
      = some (List.replicate (u64_from_be_bytes [0, 0, 0, 0, 0, 0, 4, 0]) 42) :=
  perf_server_response_is_n_bytes_of_42 [0, 0, 0, 0, 0, 0, 4, 0] [9, 9, 9] rfl

/-- C8: once the finishing channel has resolved, `poll_finish` reports the
recorded result — `Ok(())` on success, the recorded stream error otherwise
— regardless of any stored connection error; and a `ConnectionClosed`
result arises only when the finish had not yet completed (no channel, or a
still-pending channel) or when `ConnectionClosed` was itself the recorded
finish result. -/
theorem poll_finish_reports_resolved_result (st : SendStream) (conn : Conn)
    (proto_finish : Except FinishError Unit)
    (h0 : ¬(st.is_0rtt = true ∧ conn.zero_rtt_ok = false)) :
    (st.finishing = some (.ready none) →
        (SendStream.poll_finish st conn proto_finish).1 = .Ready (.ok ())) ∧
    (∀ e, st.finishing = some (.ready (some e)) →
        (SendStream.poll_finish st conn proto_finish).1 = .Ready (.error e)) ∧
    (∀ x, (SendStream.poll_finish st conn proto_finish).1
          = .Ready (.error (.ConnectionClosed x)) →
        st.finishing = none ∨ st.finishing = some .pending ∨
        st.finishing = some (.ready (some (.ConnectionClosed x)))) := by
  refine ⟨?_, ?_, ?_⟩
  · intro hfin
    simp [SendStream.poll_finish, if_neg h0, hfin]
  · intro e hfin
    simp [SendStream.poll_finish, if_neg h0, hfin]
  · intro x hres
    match hfin : st.finishing with
    | none => exact .inl rfl
    | some .pending => exact .inr (.inl rfl)
    | some (.ready none) =>
      simp [SendStream.poll_finish, if_neg h0, hfin] at hres
    | some (.ready (some e)) =>
      simp [SendStream.poll_finish, if_neg h0, hfin] at hres
      subst hres
      exact .inr (.inr rfl)

/-- C8 witness: a stream whose finish already resolved successfully still
reports `Ok(())` from `poll_finish` after the connection stored an error. -/
theorem poll_finish_reports_resolved_result_witness :
    (SendStream.poll_finish ⟨1, false, some (.ready none)⟩
        ⟨true, some ⟨9⟩, [], [], [], false⟩ (.ok ())).1 = .Ready (.ok ()) :=
  (poll_finish_reports_resolved_result ⟨1, false, some (.ready none)⟩
    ⟨true, some ⟨9⟩, [], [], [], false⟩ (.ok ()) (by decide)).1 rfl

/-- C9: on a 0-RTT stream whose connection rejected 0-RTT, `reset` returns
`Ok(())` without invoking the proto-level reset (so no RESET_STREAM is
queued) and without waking or otherwise changing the connection, whereas
write (`execute_poll`), `poll_finish` and `poll_stopped` all fail with
`ZeroRttRejected`. -/
theorem reset_is_noop_on_rejected_0rtt (st : SendStream) (conn : Conn)
    (proto_reset : Except UnknownStreamErr Unit)
    (h1 : st.is_0rtt = true) (h2 : conn.zero_rtt_ok = false) :
    SendStream.reset st conn proto_reset = (.ok (), conn, false) ∧
    (∀ (R : Type) (write_result : Except ProtoWriteError R) (waker : Nat),
        (SendStream.execute_poll st conn waker write_result).1
          = .Ready (.error .ZeroRttRejected)) ∧
    (∀ proto_finish, (SendStream.poll_finish st conn proto_finish).1
          = .Ready (.error .ZeroRttRejected)) ∧
    (∀ proto_stopped waker, (SendStream.poll_stopped st conn waker proto_stopped).1
          = .Ready (.error .ZeroRttRejected)) := by
  refine ⟨?_, ?_, ?_, ?_⟩
  · simp [SendStream.reset, h1, h2]
  · intro R write_result waker
    simp [SendStream.execute_poll, h1, h2]
  · intro proto_finish
    simp [SendStream.poll_finish, h1, h2]
  · intro proto_stopped waker
    simp [SendStream.poll_stopped, h1, h2]

/-- C9 witness: concrete rejected-0-RTT stream — reset is a silent no-op
while write, finish and stopped are rejected. -/
theorem reset_is_noop_on_rejected_0rtt_witness :
    SendStream.reset ⟨2, true, none⟩ ⟨false, none, [], [], [], false⟩ (.ok ())
      = (.ok (), ⟨false, none, [], [], [], false⟩, false) ∧
    (SendStream.execute_poll (R := Nat) ⟨2, true, none⟩ ⟨false, none, [], [], [], false⟩ 0
        (.ok 0)).1 = .Ready (.error .ZeroRttRejected) ∧
    (SendStream.poll_finish ⟨2, true, none⟩ ⟨false, none, [], [], [], false⟩ (.ok ())).1
      = .Ready (.error .ZeroRttRejected) ∧
    (SendStream.poll_stopped ⟨2, true, none⟩ ⟨false, none, [], [], [], false⟩ 0
        (.ok none)).1 = .Ready (.error .ZeroRttRejected) :=
  ⟨(reset_is_noop_on_rejected_0rtt ⟨2, true, none⟩ ⟨false, none, [], [], [], false⟩ (.ok ())
      rfl rfl).1,
   (reset_is_noop_on_rejected_0rtt ⟨2, true, none⟩ ⟨false, none, [], [], [], false⟩ (.ok ())
      rfl rfl).2.1 Nat (.ok 0) 0,
   (reset_is_noop_on_rejected_0rtt ⟨2, true, none⟩ ⟨false, none, [], [], [], false⟩ (.ok ())
      rfl rfl).2.2.1 (.ok ()),
   (reset_is_noop_on_rejected_0rtt ⟨2, true, none⟩ ⟨false, none, [], [], [], false⟩ (.ok ())
      rfl rfl).2.2.2 (.ok none) 0⟩

/-- C10: the `WriteError → io::Error` conversion is total over the four
variants and maps `Stopped` and `ZeroRttRejected` to `ConnectionReset`,
`ConnectionClosed` and `UnknownStream` to `NotConnected`. -/
theorem write_error_io_kind_mapping :
    (∀ c, (WriteError.Stopped c).io_error_kind = .ConnectionReset) ∧
    WriteError.ZeroRttRejected.io_error_kind = .ConnectionReset ∧
    (∀ x, (WriteError.ConnectionClosed x).io_error_kind = .NotConnected) ∧
    WriteError.UnknownStream.io_error_kind = .NotConnected :=
  ⟨fun _ => rfl, rfl, fun _ => rfl, rfl⟩
